import Mathlib

/-!
Shallow embedding of `gapic/configurable_snippetgen/configured_snippet.py`
(the `ConfiguredSnippet` snippet generator) together with the parts of its
external collaborators that the code exercises: the `inflection.underscore`
string conversion, a structural model of the libcst concrete syntax tree
nodes the generator builds, and the small `libcst_utils` helpers.
-/

namespace ConfiguredSnippetGen

/-! ### Model of `inflection.underscore`

The Python library function is:
  word = re.sub(r"([A-Z]+)([A-Z][a-z])", r"\1_\2", word)
  word = re.sub(r"([a-z\d])([A-Z])", r"\1_\2", word)
  word = word.replace("-", "_")
  return word.lower()
The two regex substitutions scan left to right over non-overlapping
matches; the first inserts an underscore between the last two uppercase
letters of an uppercase run that is followed by a lowercase letter, the
second inserts an underscore between a lowercase letter or digit and a
following uppercase letter. -/

/-- First substitution of `inflection.underscore`: for the pattern
`([A-Z]+)([A-Z][a-z])`, scanning left to right, an underscore is inserted
between the two groups; the match consumes through the lowercase letter. -/
def underscoreSub1 : List Char → List Char
  | c1 :: c2 :: c3 :: rest =>
    if c1.isUpper && c2.isUpper && c3.isLower then
      c1 :: '_' :: c2 :: c3 :: underscoreSub1 rest
    else
      c1 :: underscoreSub1 (c2 :: c3 :: rest)
  | l => l

/-- Second substitution of `inflection.underscore`: for the pattern
`([a-z\d])([A-Z])`, scanning left to right, an underscore is inserted
between the two characters; the match consumes both. -/
def underscoreSub2 : List Char → List Char
  | c1 :: c2 :: rest =>
    if (c1.isLower || c1.isDigit) && c2.isUpper then
      c1 :: '_' :: c2 :: underscoreSub2 rest
    else
      c1 :: underscoreSub2 (c2 :: rest)
  | l => l

/-- Model of `inflection.underscore`: the two substitutions, then
`replace("-", "_")`, then lowercasing. -/
def underscore (word : String) : String :=
  let cs := underscoreSub2 (underscoreSub1 word.toList)
  let cs := cs.map (fun c => if c == '-' then '_' else c)
  String.mk (cs.map Char.toLower)

/-! ### Structural model of the libcst nodes used by the generator -/

/-- Expressions, modelling the libcst nodes the generator builds:
`Name`, `Attribute`, `Call` (whose arguments are optionally-keyworded
`Arg` nodes) and the dictionary literal produced by
`libcst_utils.convert_py_dict` on string pairs. -/
inductive Expr where
  | name (value : String)
  | attr (obj : Expr) (field : String)
  | call (func : Expr) (args : List (Option String × Expr))
  | dictLit (entries : List (String × String))

/-- A function parameter node (`libcst.Param`): a name; the type
declaration slot is not populated by this generator. -/
structure Param where
  name : String
deriving DecidableEq, Repr

/-- A statement inside a function body.  `assign` models a single
assignment line such as the client-initialization statement; `ifStmt`
models a compound statement carrying a nested indented block (its body),
which is how libcst nests blocks more than one level inside a function. -/
inductive Statement where
  | assign (target : String) (value : Expr)
  | ifStmt (cond : Expr) (body : List Statement)

/-- A function definition node (`libcst.FunctionDef`): a name, the
sync/async marker, the parameter list, and the statement sequence of its
immediate `IndentedBlock` body. -/
structure FunctionDef where
  name : String
  is_sync : Bool
  params : List Param
  body : List Statement

/-- A top-level item of a module: either a simple statement or a function
definition. -/
inductive ModuleItem where
  | stmt (s : Statement)
  | fn (f : FunctionDef)

/-- A source module (`libcst.Module`): a sequence of top-level items. -/
structure Module where
  body : List ModuleItem

/-! ### Rendering (the `Module.code` view of libcst) -/

mutual

/-- Renders one expression to source text. -/
def renderExpr : Expr → String
  | .name s => s
  | .attr obj f => renderExpr obj ++ "." ++ f
  | .call f args => renderExpr f ++ "(" ++ renderArgList args ++ ")"
  | .dictLit entries =>
    "\x7b" ++ String.intercalate ", "
      (entries.map (fun e => "\"" ++ e.1 ++ "\": \"" ++ e.2 ++ "\"")) ++ "\x7d"

/-- Renders a call argument list to source text. -/
def renderArgList : List (Option String × Expr) → String
  | [] => ""
  | (kw, v) :: rest =>
    (match kw with | some k => k ++ "=" | none => "")
      ++ renderExpr v ++ (if rest.isEmpty then "" else ", ") ++ renderArgList rest

end

mutual

/-- Renders one statement at the given indentation. -/
def renderStmt (indent : String) : Statement → String
  | .assign t v => indent ++ t ++ " = " ++ renderExpr v ++ "\n"
  | .ifStmt c body =>
    indent ++ "if " ++ renderExpr c ++ ":\n"
      ++ renderStmtList (indent ++ "    ") body

/-- Renders a statement sequence at the given indentation. -/
def renderStmtList (indent : String) : List Statement → String
  | [] => ""
  | s :: rest => renderStmt indent s ++ renderStmtList indent rest

end

/-- Renders a parameter list. -/
def renderParamList (ps : List Param) : String :=
  String.intercalate ", " (ps.map Param.name)

/-- Renders a function definition. -/
def renderFunctionDef (f : FunctionDef) : String :=
  (if f.is_sync then "def " else "async def ") ++ f.name ++ "("
    ++ renderParamList f.params ++ "):\n" ++ renderStmtList "    " f.body

/-- Renders a top-level module item. -/
def renderModuleItem : ModuleItem → String
  | .stmt s => renderStmt "" s
  | .fn f => renderFunctionDef f

/-- The `Module.code` rendering: the concatenation of the rendered
top-level items. -/
def Module.code (m : Module) : String :=
  String.join (m.body.map renderModuleItem)

/-! ### The snippet configuration (`SnippetConfig` proto message)

Only the field paths the generator reads are modelled:
`rpc.proto_package`, `rpc.service_name`, `rpc.rpc_name`,
`metadata.config_id`, `signature.snippet_method_name`,
`signature.parameters`, and
`snippet.service_client_initialization.custom_service_endpoint.{host, region}`. -/

/-- The `rpc` field group of the configuration. -/
structure Rpc where
  proto_package : String
  service_name : String
  rpc_name : String
deriving DecidableEq, Repr

/-- The `metadata` field group of the configuration. -/
structure Metadata where
  config_id : String
deriving DecidableEq, Repr

/-- One entry of `signature.parameters`: a parameter descriptor carrying
the sample function parameter's name. -/
structure ConfigParameter where
  name : String
deriving DecidableEq, Repr

/-- The `signature` field group of the configuration. -/
structure Signature where
  snippet_method_name : String
  parameters : List ConfigParameter
deriving DecidableEq, Repr

/-- The custom service endpoint of the configuration: a host and a region
(unset scalar fields read as the empty string). -/
structure CustomServiceEndpoint where
  host : String
  region : String
deriving DecidableEq, Repr

/-- The `snippet.service_client_initialization` field group. -/
structure ServiceClientInit where
  custom_service_endpoint : CustomServiceEndpoint
deriving DecidableEq, Repr

/-- The `snippet` field group of the configuration. -/
structure Snippet where
  service_client_initialization : ServiceClientInit
deriving DecidableEq, Repr

/-- The snippet configuration record. -/
structure SnippetConfig where
  rpc : Rpc
  metadata : Metadata
  signature : Signature
  snippet : Snippet
deriving DecidableEq, Repr

/-- The API schema (`gapic.schema.api.API`): threaded through but not
traversed by this generator. -/
inductive API where
  | mk
deriving DecidableEq, Repr

/-! ### `libcst_utils` helpers (repository code not under `src/`) -/

/-- Modelled from the spec: `libcst_utils.empty_module` is not under
`src/`; the spec says construction "initializes an empty source module". -/
def empty_module : Module := ⟨[]⟩

/-- Modelled from the spec: `libcst_utils.base_function_def` is not under
`src/`; the spec says construction initializes "a function definition
skeleton named from a naming rule ... with an empty parameter list and
empty body", with the sync/async marker taken from `is_sync`. -/
def base_function_def (function_name : String) (is_sync : Bool) : FunctionDef :=
  { name := function_name, is_sync := is_sync, params := [], body := [] }

/-- Modelled from the spec: `libcst_utils.convert_parameter` is not under
`src/`; the spec says it converts "each configuration parameter descriptor
into the structural parameter representation (name, and a reserved slot
for a type ... that is not yet populated)". -/
def convert_parameter (p : ConfigParameter) : Param := ⟨p.name⟩

/-- Modelled from the spec: `libcst_utils.convert_py_dict` is not under
`src/`; the spec says the `client_options` value is "a dictionary literal
containing a single key ... mapped to the computed endpoint string", so
the helper turns string pairs into a dictionary-literal node. -/
def convert_py_dict (entries : List (String × String)) : Expr :=
  Expr.dictLit entries

/-! ### The `_AppendToSampleFunctionBody` transformer

The libcst transformer overrides `visit_IndentedBlock` to return `False`
(so the children of a visited `IndentedBlock` are never traversed) and
`leave_IndentedBlock` to append the statement.  Applied to a
`FunctionDef` via `.visit`, the traversal reaches the function's own
`IndentedBlock` body, does not descend into it, and appends the statement
on leaving it; blocks nested inside the body's statements are never
reached, so `leave_IndentedBlock` never fires on them. -/

/-- Applying `_AppendToSampleFunctionBody(statement)` to a function
definition: the function's immediate body block receives the appended
statement; its existing statements are not visited, hence copied verbatim
with all their nested blocks. -/
def appendToSampleFunctionBody (f : FunctionDef) (statement : Statement) :
    FunctionDef :=
  { f with body := f.body ++ [statement] }

/-! ### The `ConfiguredSnippet` dataclass -/

/-- The `ConfiguredSnippet` aggregate: the four constructor fields plus
the internal `_module` and `_sample_function_def` state set up by
`__post_init__` and mutated by `generate()`. -/
structure ConfiguredSnippet where
  api_schema : API
  config : SnippetConfig
  api_version : String
  is_sync : Bool
  _module : Module
  _sample_function_def : FunctionDef

/-- The sample function name computed from the configuration, as in the
`sample_function_name` property read by `__post_init__`:
`f"sample_{snippet_method_name}_{config_id}"`. -/
def sampleFunctionNameOfConfig (config : SnippetConfig) : String :=
  "sample_" ++ config.signature.snippet_method_name ++ "_"
    ++ config.metadata.config_id

/-- Construction (`__init__` plus `__post_init__`): stores the four
fields, sets `_module` to `libcst_utils.empty_module()` and
`_sample_function_def` to `libcst_utils.base_function_def` on the
`sample_function_name` property and `is_sync`.  No validation of the
configuration is performed. -/
def ConfiguredSnippet.init (api_schema : API) (config : SnippetConfig)
    (api_version : String) (is_sync : Bool) : ConfiguredSnippet :=
  { api_schema := api_schema
    config := config
    api_version := api_version
    is_sync := is_sync
    _module := empty_module
    _sample_function_def :=
      base_function_def (sampleFunctionNameOfConfig config) is_sync }

namespace ConfiguredSnippet

/-- The `code` property: `self._module.code`. -/
def code (s : ConfiguredSnippet) : String :=
  s._module.code

/-- The `gapic_module_name` property:
`self.config.rpc.proto_package.split(".")[-1]` followed by
`f"{module_name}_{self.api_version}"`. -/
def gapic_module_name (s : ConfiguredSnippet) : String :=
  let module_name := (s.config.rpc.proto_package.splitOn ".").getLastD ""
  module_name ++ "_" ++ s.api_version

/-- The `region_tag` property:
`f"{gapic_module_name}_config_{service_name}_{rpc_name}_{config_id}_{sync_or_async}"`. -/
def region_tag (s : ConfiguredSnippet) : String :=
  let service_name := s.config.rpc.service_name
  let rpc_name := s.config.rpc.rpc_name
  let config_id := s.config.metadata.config_id
  let sync_or_async := if s.is_sync then "sync" else "async"
  s.gapic_module_name ++ "_config_" ++ service_name ++ "_" ++ rpc_name
    ++ "_" ++ config_id ++ "_" ++ sync_or_async

/-- The `sample_function_name` property:
`f"sample_{snippet_method_name}_{config_id}"`. -/
def sample_function_name (s : ConfiguredSnippet) : String :=
  let snippet_method_name := s.config.signature.snippet_method_name
  let config_id := s.config.metadata.config_id
  "sample_" ++ snippet_method_name ++ "_" ++ config_id

/-- The `client_class_name` property: `f"{service_name}Client"` when
`is_sync`, else `f"{service_name}AsyncClient"`. -/
def client_class_name (s : ConfiguredSnippet) : String :=
  if s.is_sync then
    s.config.rpc.service_name ++ "Client"
  else
    s.config.rpc.service_name ++ "AsyncClient"

/-- The `filename` property:
`f"{gapic_module_name}_generated_{service_name}_{snake_case_rpc_name}_{config_id}_{sync_or_async}.py"`
where `snake_case_rpc_name = inflection.underscore(rpc_name)`. -/
def filename (s : ConfiguredSnippet) : String :=
  let service_name := s.config.rpc.service_name
  let snake_case_rpc_name := underscore s.config.rpc.rpc_name
  let config_id := s.config.metadata.config_id
  let sync_or_async := if s.is_sync then "sync" else "async"
  s.gapic_module_name ++ "_generated_" ++ service_name ++ "_"
    ++ snake_case_rpc_name ++ "_" ++ config_id ++ "_" ++ sync_or_async ++ ".py"

/-- The `api_endpoint` property: `None` when the custom endpoint host is
falsy (empty); the host alone when the region is falsy; otherwise
`f"{region}-{host}"`. -/
def api_endpoint (s : ConfiguredSnippet) : Option String :=
  let host :=
    s.config.snippet.service_client_initialization.custom_service_endpoint.host
  let region :=
    s.config.snippet.service_client_initialization.custom_service_endpoint.region
  if host = "" then none
  else if region = "" then some host
  else some (region ++ "-" ++ host)

/-- The method `_append_to_sample_function_def_body`: applies the
`_AppendToSampleFunctionBody` transformer to `_sample_function_def` and
stores the result back. -/
def append_to_sample_function_def_body (s : ConfiguredSnippet)
    (statement : Statement) : ConfiguredSnippet :=
  { s with _sample_function_def :=
      appendToSampleFunctionBody s._sample_function_def statement }

/-- The method `_add_sample_function_parameters`: converts every entry of
`config.signature.parameters` with `libcst_utils.convert_parameter`, in
order, and replaces the function's parameter list with the result. -/
def add_sample_function_parameters (s : ConfiguredSnippet) : ConfiguredSnippet :=
  let params := s.config.signature.parameters.map convert_parameter
  { s with _sample_function_def :=
      { s._sample_function_def with params := params } }

/-- The client-initialization statement built inside
`_append_service_client_initialization`: when `api_endpoint` is not
`None`, the parsed template
`client = {gapic_module_name}.{client_class_name}({arg})` with the single
`client_options=` keyword argument holding the dictionary literal from
`convert_py_dict`; otherwise the parsed statement
`client = {gapic_module_name}.{client_class_name}()`. -/
def serviceClientInitStmt (s : ConfiguredSnippet) : Statement :=
  match s.api_endpoint with
  | some endpoint =>
    Statement.assign "client"
      (Expr.call (Expr.attr (Expr.name s.gapic_module_name) s.client_class_name)
        [(some "client_options", convert_py_dict [("api_endpoint", endpoint)])])
  | none =>
    Statement.assign "client"
      (Expr.call (Expr.attr (Expr.name s.gapic_module_name) s.client_class_name)
        [])

/-- The method `_append_service_client_initialization`: builds the
client-initialization statement and appends it via
`_append_to_sample_function_def_body`. -/
def append_service_client_initialization (s : ConfiguredSnippet) :
    ConfiguredSnippet :=
  s.append_to_sample_function_def_body (serviceClientInitStmt s)

/-- The method `_build_sample_function`: materializes the parameters, then
appends the client-initialization statement. -/
def build_sample_function (s : ConfiguredSnippet) : ConfiguredSnippet :=
  s.add_sample_function_parameters.append_service_client_initialization

/-- The method `_add_sample_function`: replaces the module body with the
single-element sequence holding the sample function definition. -/
def add_sample_function (s : ConfiguredSnippet) : ConfiguredSnippet :=
  { s with _module := ⟨[ModuleItem.fn s._sample_function_def]⟩ }

/-- The `generate()` entrypoint: `_build_sample_function` then
`_add_sample_function`. -/
def generate (s : ConfiguredSnippet) : ConfiguredSnippet :=
  s.build_sample_function.add_sample_function

end ConfiguredSnippet

/-! ### String suffix test

The spec's "ends with" on strings, as a decidable test on the underlying
character lists. -/

/-- Tests whether the string `s` ends with the string `t`. -/
def strEndsWith (s t : String) : Bool :=
  decide (t.data.IsSuffix s.data)

/-! ### Partial configurations (missing proto fields)

The configuration message types come from `snippet_config_language_pb2`,
generated protobuf code of this repository that is not under `src/`. -/

/-- Modelled from the spec: a configuration in which any of the field
paths the generator reads may be missing.  Spec section 7 says such
configurations are "not validated proactively" and that a dereference of
a missing field "fails with a 'missing field' error at first dereference,
propagated to the caller uncaught". -/
structure PartialSnippetConfig where
  proto_package : Option String
  service_name : Option String
  rpc_name : Option String
  config_id : Option String
  snippet_method_name : Option String
  parameters : Option (List ConfigParameter)
  host : Option String
  region : Option String

/-- Modelled from the spec: dereferencing a configuration field; a
missing field produces the propagated "missing field" error. -/
def deref {α : Type} (field : String) : Option α → Except String α
  | some v => Except.ok v
  | none => Except.error ("missing field: " ++ field)

/-- A `ConfiguredSnippet` over a partial configuration. -/
structure PartialConfiguredSnippet where
  config : PartialSnippetConfig
  api_version : String
  is_sync : Bool
  _module : Module
  _sample_function_def : FunctionDef

/-- Construction over a partial configuration: `__post_init__` reads only
`signature.snippet_method_name` and `metadata.config_id` (through the
`sample_function_name` property used by `base_function_def`); no other
configuration field is dereferenced and no validation is performed. -/
def PartialConfiguredSnippet.init (config : PartialSnippetConfig)
    (api_version : String) (is_sync : Bool) :
    Except String PartialConfiguredSnippet := do
  let snippet_method_name ← deref "signature.snippet_method_name" config.snippet_method_name
  let config_id ← deref "metadata.config_id" config.config_id
  Except.ok
    { config := config
      api_version := api_version
      is_sync := is_sync
      _module := empty_module
      _sample_function_def :=
        base_function_def ("sample_" ++ snippet_method_name ++ "_" ++ config_id)
          is_sync }

/-- The `gapic_module_name` property over a partial configuration: its
first dereference is `config.rpc.proto_package`. -/
def PartialConfiguredSnippet.gapic_module_name (s : PartialConfiguredSnippet) :
    Except String String := do
  let proto_package ← deref "rpc.proto_package" s.config.proto_package
  Except.ok ((proto_package.splitOn ".").getLastD "" ++ "_" ++ s.api_version)

/-! ### Property access as a state transition

Each `@property` getter of `ConfiguredSnippet` is a straight-line read of
the instance followed by a return; an access is modelled as a function
from the instance to the returned value paired with the instance the
caller holds afterwards. -/

/-- The names of the derived properties of `ConfiguredSnippet`. -/
inductive PropName where
  | code
  | gapic_module_name
  | region_tag
  | sample_function_name
  | client_class_name
  | filename
  | api_endpoint
deriving DecidableEq, Repr

/-- The value returned by a property access: a string, or (for
`api_endpoint`) an optional string. -/
def PropValue : Type := String ⊕ Option String

/-- Accessing the named property on an instance: the getter body runs and
returns its value; the getters contain no assignment to `self`, so the
instance afterwards is the instance before. -/
def getProp (p : PropName) (s : ConfiguredSnippet) :
    PropValue × ConfiguredSnippet :=
  match p with
  | .code => (Sum.inl s.code, s)
  | .gapic_module_name => (Sum.inl s.gapic_module_name, s)
  | .region_tag => (Sum.inl s.region_tag, s)
  | .sample_function_name => (Sum.inl s.sample_function_name, s)
  | .client_class_name => (Sum.inl s.client_class_name, s)
  | .filename => (Sum.inl s.filename, s)
  | .api_endpoint => (Sum.inr s.api_endpoint, s)

/-! ### Concrete configurations (the spec's worked example) -/

/-- The spec's example configuration: `proto_package
"google.cloud.speech.v1"`, service `Adaptation`, RPC `CreateCustomClass`,
config id `Basic`, no custom endpoint. -/
def exampleConfig : SnippetConfig :=
  { rpc :=
      { proto_package := "google.cloud.speech.v1"
        service_name := "Adaptation"
        rpc_name := "CreateCustomClass" }
    metadata := { config_id := "Basic" }
    signature :=
      { snippet_method_name := "create_custom_class"
        parameters := [] }
    snippet :=
      { service_client_initialization :=
          { custom_service_endpoint := { host := "", region := "" } } } }

/-- The spec's example configuration with the custom endpoint host
`eu.speech.googleapis.com` and region `eu`. -/
def exampleEndpointConfig : SnippetConfig :=
  { exampleConfig with
    snippet :=
      { service_client_initialization :=
          { custom_service_endpoint :=
              { host := "eu.speech.googleapis.com", region := "eu" } } } }

/-- A partial configuration whose `rpc.proto_package` field is missing
while the fields read during construction are present. -/
def examplePartialConfig : PartialSnippetConfig :=
  { proto_package := none
    service_name := some "Adaptation"
    rpc_name := some "CreateCustomClass"
    config_id := some "Basic"
    snippet_method_name := some "create_custom_class"
    parameters := some []
    host := some ""
    region := some "" }

/-! ### Helper lemmas on strings and lists -/

/-- The character data of a string concatenation is the concatenation of
the character data. -/
theorem data_append_eq (s t : String) : (s ++ t).data = s.data ++ t.data := by
  cases s; cases t; rfl

/-- String concatenation is associative. -/
theorem str_append_assoc (a b c : String) : a ++ b ++ c = a ++ (b ++ c) := by
  cases a; cases b; cases c
  exact congrArg String.mk (List.append_assoc _ _ _)

/-- Two lists that agree except for one element right before a common
tail can only be equal if those elements are equal. -/
theorem append_cons_same_tail {u w : List Char} {c d : Char} {S : List Char}
    (h : u ++ c :: S = w ++ d :: S) : c = d := by
  have h1 : (u ++ [c]) ++ S = (w ++ [d]) ++ S := by simpa using h
  have h2 : u ++ [c] = w ++ [d] := List.append_cancel_right h1
  have h3 := congrArg List.reverse h2
  simp [List.reverse_append] at h3
  exact h3.1

/-- A string concatenation ends with its second operand. -/
theorem strEndsWith_append (x t : String) : strEndsWith (x ++ t) t = true := by
  simp only [strEndsWith, decide_eq_true_eq, data_append_eq]
  exact List.suffix_append _ _

/-- A string whose data ends in `d :: S` does not end with a string whose
data ends in `c :: S` when `c ≠ d`. -/
theorem strEndsWith_eq_false_of_mismatch (x t : String) (t1 u1 S : List Char)
    (c d : Char) (hcd : c ≠ d) (ht : t.data = t1 ++ c :: S)
    (hx : x.data = u1 ++ d :: S) : strEndsWith x t = false := by
  simp only [strEndsWith, decide_eq_false_iff_not]
  rintro ⟨u, hu⟩
  rw [ht, hx] at hu
  rw [← List.append_assoc] at hu
  exact hcd (append_cons_same_tail hu)

/-- Appending `"_" ++ ("sync"|"async") ++ ".py"` is appending
`"_sync.py"` or `"_async.py"`. -/
theorem append_sync_async_py (X : String) (b : Bool) :
    X ++ "_" ++ (if b then "sync" else "async") ++ ".py"
      = X ++ (if b then "_sync.py" else "_async.py") := by
  cases b
  · rw [str_append_assoc, str_append_assoc]
    exact congrArg (fun z => X ++ z) (by decide)
  · rw [str_append_assoc, str_append_assoc]
    exact congrArg (fun z => X ++ z) (by decide)

/-- Appending `"_" ++ ("sync"|"async")` is appending `"_sync"` or
`"_async"`. -/
theorem append_sync_async (X : String) (b : Bool) :
    X ++ "_" ++ (if b then "sync" else "async")
      = X ++ (if b then "_sync" else "_async") := by
  cases b
  · rw [str_append_assoc]
    exact congrArg (fun z => X ++ z) (by decide)
  · rw [str_append_assoc]
    exact congrArg (fun z => X ++ z) (by decide)

/-- A string ending in `"_async.py"` does not end with `"_sync.py"`. -/
theorem not_endsWith_sync_py (y : String) :
    strEndsWith (y ++ "_async.py") "_sync.py" = false := by
  refine strEndsWith_eq_false_of_mismatch _ _ [] (y.data ++ [Char.ofNat 95])
    "sync.py".data (Char.ofNat 95) (Char.ofNat 97) (by decide) rfl ?_
  rw [data_append_eq, List.append_assoc]
  rfl

/-- A string ending in `"_sync.py"` does not end with `"_async.py"`. -/
theorem not_endsWith_async_py (y : String) :
    strEndsWith (y ++ "_sync.py") "_async.py" = false := by
  refine strEndsWith_eq_false_of_mismatch _ _ [Char.ofNat 95] y.data
    "sync.py".data (Char.ofNat 97) (Char.ofNat 95) (by decide) rfl ?_
  rw [data_append_eq]

/-- A string ending in `"_async"` does not end with `"_sync"`. -/
theorem not_endsWith_sync (y : String) :
    strEndsWith (y ++ "_async") "_sync" = false := by
  refine strEndsWith_eq_false_of_mismatch _ _ [] (y.data ++ [Char.ofNat 95])
    "sync".data (Char.ofNat 95) (Char.ofNat 97) (by decide) rfl ?_
  rw [data_append_eq, List.append_assoc]
  rfl

/-- Concatenation with the empty string on the left is the identity. -/
theorem empty_str_append (a : String) : "" ++ a = a := by
  cases a; rfl

/-- Appending `"AsyncClient"` and appending `"Client"` to the same string
give different strings. -/
theorem async_client_name_ne (a : String) :
    a ++ "AsyncClient" ≠ a ++ "Client" := by
  intro h
  have h2 := congrArg String.data h
  rw [data_append_eq, data_append_eq] at h2
  have h3 := List.append_cancel_left h2
  exact absurd h3 (by decide)

/-! ### The claims -/

/-- C2: For every configuration, the client-initialization statement
built by `_append_service_client_initialization` has the form
`client = <gapic_module_name>.<client_class_name>(...)`; when
`api_endpoint` is non-null the call carries exactly the
`client_options=` keyword argument holding the dictionary literal with the
single key `"api_endpoint"` mapped to the computed endpoint, and when
`api_endpoint` is null the call takes no arguments; the statement is
appended to the end of the sample function body. -/
theorem service_client_init_statement_form (s : ConfiguredSnippet) :
    (∀ e : String, s.api_endpoint = some e →
      ConfiguredSnippet.serviceClientInitStmt s
        = Statement.assign "client"
            (Expr.call
              (Expr.attr (Expr.name s.gapic_module_name) s.client_class_name)
              [(some "client_options",
                Expr.dictLit [("api_endpoint", e)])]))
  ∧ (s.api_endpoint = none →
      ConfiguredSnippet.serviceClientInitStmt s
        = Statement.assign "client"
            (Expr.call
              (Expr.attr (Expr.name s.gapic_module_name) s.client_class_name)
              []))
  ∧ (s.append_service_client_initialization._sample_function_def.body
      = s._sample_function_def.body
        ++ [ConfiguredSnippet.serviceClientInitStmt s]) := by
  refine ⟨?_, ?_, ?_⟩
  · intro e he
    simp [ConfiguredSnippet.serviceClientInitStmt, he, convert_py_dict]
  · intro he
    simp [ConfiguredSnippet.serviceClientInitStmt, he]
  · simp [ConfiguredSnippet.append_service_client_initialization,
      ConfiguredSnippet.append_to_sample_function_def_body,
      appendToSampleFunctionBody]

/-- Witness for C2 at the spec's example configurations, with and without
a custom endpoint. -/
theorem service_client_init_statement_form_witness :
    (ConfiguredSnippet.serviceClientInitStmt
        (ConfiguredSnippet.init API.mk exampleEndpointConfig "v1" true)
      = Statement.assign "client"
          (Expr.call
            (Expr.attr
              (Expr.name (ConfiguredSnippet.init API.mk exampleEndpointConfig
                "v1" true).gapic_module_name)
              (ConfiguredSnippet.init API.mk exampleEndpointConfig
                "v1" true).client_class_name)
            [(some "client_options",
              Expr.dictLit
                [("api_endpoint", "eu-eu.speech.googleapis.com")])]))
  ∧ (ConfiguredSnippet.serviceClientInitStmt
        (ConfiguredSnippet.init API.mk exampleConfig "v1" false)
      = Statement.assign "client"
          (Expr.call
            (Expr.attr
              (Expr.name (ConfiguredSnippet.init API.mk exampleConfig
                "v1" false).gapic_module_name)
              (ConfiguredSnippet.init API.mk exampleConfig
                "v1" false).client_class_name)
            [])) :=
  ⟨(service_client_init_statement_form _).1 "eu-eu.speech.googleapis.com"
      (by decide),
    (service_client_init_statement_form _).2.1 (by decide)⟩

/-- C3: For every configuration, `api_endpoint` is null when the custom
endpoint host is empty, is exactly the host when the host is set and the
region is empty, and is `region ++ "-" ++ host` when both are set. -/
theorem api_endpoint_cases (s : ConfiguredSnippet) :
    (s.config.snippet.service_client_initialization.custom_service_endpoint.host
        = "" → s.api_endpoint = none)
  ∧ (s.config.snippet.service_client_initialization.custom_service_endpoint.host
        ≠ "" →
     s.config.snippet.service_client_initialization.custom_service_endpoint.region
        = "" →
      s.api_endpoint
        = some s.config.snippet.service_client_initialization.custom_service_endpoint.host)
  ∧ (s.config.snippet.service_client_initialization.custom_service_endpoint.host
        ≠ "" →
     s.config.snippet.service_client_initialization.custom_service_endpoint.region
        ≠ "" →
      s.api_endpoint
        = some (s.config.snippet.service_client_initialization.custom_service_endpoint.region
            ++ "-"
            ++ s.config.snippet.service_client_initialization.custom_service_endpoint.host)) := by
  refine ⟨?_, ?_, ?_⟩ <;> intros <;> simp [ConfiguredSnippet.api_endpoint, *]

/-- Witness for C3 at the spec's example configurations: no endpoint, and
host `eu.speech.googleapis.com` with region `eu`. -/
theorem api_endpoint_cases_witness :
    (ConfiguredSnippet.init API.mk exampleConfig "v1" true).api_endpoint = none
  ∧ (ConfiguredSnippet.init API.mk exampleEndpointConfig "v1" true).api_endpoint
      = some "eu-eu.speech.googleapis.com" := by
  constructor
  · exact (api_endpoint_cases _).1 (by decide)
  · exact ((api_endpoint_cases _).2.2 (by decide) (by decide)).trans (by decide)

/-- C4: Appending two statements in sequence with
`_append_to_sample_function_def_body` yields the old immediate body with
the two statements appended at the end in call order; the old statements
(with all their nested blocks) stay verbatim in their positions, the
parameter list, name and sync marker are unchanged, and the module and
configuration are untouched. -/
theorem append_to_body_preserves_structure (s : ConfiguredSnippet)
    (st1 st2 : Statement) :
    let s2 := (s.append_to_sample_function_def_body
                st1).append_to_sample_function_def_body st2
    s2._sample_function_def.body = s._sample_function_def.body ++ [st1, st2]
  ∧ s2._sample_function_def.body.take s._sample_function_def.body.length
      = s._sample_function_def.body
  ∧ s2._sample_function_def.params = s._sample_function_def.params
  ∧ s2._sample_function_def.name = s._sample_function_def.name
  ∧ s2._sample_function_def.is_sync = s._sample_function_def.is_sync
  ∧ s2._module = s._module
  ∧ s2.config = s.config := by
  refine ⟨?_, ?_, rfl, rfl, rfl, rfl, rfl⟩
  · simp [ConfiguredSnippet.append_to_sample_function_def_body,
      appendToSampleFunctionBody]
  · show ((s._sample_function_def.body ++ [st1]) ++ [st2]).take
        s._sample_function_def.body.length = s._sample_function_def.body
    rw [List.append_assoc]
    exact List.take_left _ _

/-- C5: For every configuration, `sample_function_name` is
`"sample_" ++ signature.snippet_method_name ++ "_" ++ metadata.config_id`
and does not depend on the `is_sync` flag. -/
theorem sample_function_name_formula (s : ConfiguredSnippet) :
    s.sample_function_name
      = "sample_" ++ s.config.signature.snippet_method_name ++ "_"
        ++ s.config.metadata.config_id
  ∧ ∀ b : Bool,
      ({ s with is_sync := b } : ConfiguredSnippet).sample_function_name
        = s.sample_function_name :=
  ⟨rfl, fun _ => rfl⟩

/-- C8: Construction over a configuration missing `rpc.proto_package`
performs no validation and succeeds, and the first dereference of the
missing field (here through the `gapic_module_name` property) fails with
the propagated missing-field error and produces no partial result. -/
theorem missing_field_first_dereference (c : PartialSnippetConfig)
    (v : String) (b : Bool) (m i : String)
    (hm : c.snippet_method_name = some m) (hi : c.config_id = some i)
    (hp : c.proto_package = none) :
    ∃ s : PartialConfiguredSnippet,
      PartialConfiguredSnippet.init c v b = Except.ok s
        ∧ s.gapic_module_name
            = Except.error "missing field: rpc.proto_package" := by
  refine ⟨{ config := c, api_version := v, is_sync := b,
            _module := empty_module,
            _sample_function_def :=
              base_function_def ("sample_" ++ m ++ "_" ++ i) b }, ?_, ?_⟩
  · unfold PartialConfiguredSnippet.init
    rw [hm, hi]
    rfl
  · have hgen : ∀ s : PartialConfiguredSnippet, s.config.proto_package = none →
        s.gapic_module_name = Except.error "missing field: rpc.proto_package" := by
      intro s hs
      unfold PartialConfiguredSnippet.gapic_module_name
      rw [hs]
      rfl
    exact hgen _ hp

/-- Witness for C8 at a concrete configuration whose `rpc.proto_package`
is missing while the fields construction reads are present. -/
theorem missing_field_first_dereference_witness :
    ∃ s : PartialConfiguredSnippet,
      PartialConfiguredSnippet.init examplePartialConfig "v1" true
          = Except.ok s
        ∧ s.gapic_module_name
            = Except.error "missing field: rpc.proto_package" :=
  missing_field_first_dereference examplePartialConfig "v1" true
    "create_custom_class" "Basic" rfl rfl rfl

/-- C1: For every valid configuration, after `generate()` is called once,
the module rendered by `code` holds exactly one function definition; its
name equals `sample_function_name`, its parameter list is the conversion
of `config.signature.parameters` in configuration order (in particular of
the same length), and the first (and only) statement of its body is the
client-initialization assignment. -/
theorem generate_renders_single_sample_function (a : API)
    (config : SnippetConfig) (v : String) (b : Bool) :
    let g := (ConfiguredSnippet.init a config v b).generate
    g._module.body = [ModuleItem.fn g._sample_function_def]
  ∧ g._sample_function_def.name = g.sample_function_name
  ∧ g._sample_function_def.params
      = config.signature.parameters.map convert_parameter
  ∧ g._sample_function_def.params.length
      = config.signature.parameters.length
  ∧ g._sample_function_def.body.head?
      = some (ConfiguredSnippet.serviceClientInitStmt g)
  ∧ g._sample_function_def.body
      = [ConfiguredSnippet.serviceClientInitStmt g]
  ∧ g.code = renderFunctionDef g._sample_function_def := by
  refine ⟨rfl, rfl, rfl, List.length_map _ _, ?_, ?_, ?_⟩ <;>
    simp [ConfiguredSnippet.generate, ConfiguredSnippet.build_sample_function,
      ConfiguredSnippet.add_sample_function,
      ConfiguredSnippet.add_sample_function_parameters,
      ConfiguredSnippet.append_service_client_initialization,
      ConfiguredSnippet.append_to_sample_function_def_body,
      appendToSampleFunctionBody, ConfiguredSnippet.serviceClientInitStmt,
      ConfiguredSnippet.api_endpoint, ConfiguredSnippet.gapic_module_name,
      ConfiguredSnippet.client_class_name, ConfiguredSnippet.init,
      base_function_def, empty_module, ConfiguredSnippet.code, Module.code,
      String.join, renderModuleItem, empty_str_append]

/-- C6: For every configuration, `filename` equals
`gapic_module_name ++ "_generated_" ++ service_name ++ "_"
++ snake_case(rpc_name) ++ "_" ++ config_id ++ "_" ++ ("sync"|"async")
++ ".py"` with `rpc_name` converted to snake case by
`inflection.underscore`; in particular `filename` ends with `"_sync.py"`
iff `is_sync` is true, and with `"_async.py"` otherwise. -/
theorem filename_formula (s : ConfiguredSnippet) :
    s.filename
      = s.gapic_module_name ++ "_generated_" ++ s.config.rpc.service_name
        ++ "_" ++ underscore s.config.rpc.rpc_name ++ "_"
        ++ s.config.metadata.config_id ++ "_"
        ++ (if s.is_sync then "sync" else "async") ++ ".py"
  ∧ (strEndsWith s.filename "_sync.py" = true ↔ s.is_sync = true)
  ∧ (strEndsWith s.filename "_async.py" = true ↔ s.is_sync = false)
  ∧ underscore "CreateCustomClass" = "create_custom_class" := by
  have h1 : s.filename
      = (s.gapic_module_name ++ "_generated_" ++ s.config.rpc.service_name
          ++ "_" ++ underscore s.config.rpc.rpc_name ++ "_"
          ++ s.config.metadata.config_id)
        ++ (if s.is_sync then "_sync.py" else "_async.py") :=
    append_sync_async_py _ s.is_sync
  refine ⟨rfl, ?_, ?_, by decide⟩
  · cases hs : s.is_sync <;>
      simp [h1, hs, strEndsWith_append, not_endsWith_sync_py]
  · cases hs : s.is_sync <;>
      simp [h1, hs, strEndsWith_append, not_endsWith_async_py]

/-- C7: For every configuration and every value of `is_sync`, the
sync/async selection is consistent across the naming properties:
`region_tag` ends with `"_sync"` iff `is_sync`, `filename` ends with
`"_sync.py"` iff `is_sync`, and `client_class_name` equals
`service_name ++ "Client"` (rather than `service_name ++ "AsyncClient"`)
iff `is_sync`. -/
theorem sync_async_selection_consistent (s : ConfiguredSnippet) :
    (strEndsWith s.region_tag "_sync" = true ↔ s.is_sync = true)
  ∧ (strEndsWith s.filename "_sync.py" = true ↔ s.is_sync = true)
  ∧ ((s.client_class_name = s.config.rpc.service_name ++ "Client")
      ↔ s.is_sync = true) := by
  have h1 : s.region_tag
      = (s.gapic_module_name ++ "_config_" ++ s.config.rpc.service_name
          ++ "_" ++ s.config.rpc.rpc_name ++ "_"
          ++ s.config.metadata.config_id)
        ++ (if s.is_sync then "_sync" else "_async") :=
    append_sync_async _ s.is_sync
  have h2 : s.filename
      = (s.gapic_module_name ++ "_generated_" ++ s.config.rpc.service_name
          ++ "_" ++ underscore s.config.rpc.rpc_name ++ "_"
          ++ s.config.metadata.config_id)
        ++ (if s.is_sync then "_sync.py" else "_async.py") :=
    append_sync_async_py _ s.is_sync
  refine ⟨?_, ?_, ?_⟩
  · cases hs : s.is_sync <;>
      simp [h1, hs, strEndsWith_append, not_endsWith_sync]
  · cases hs : s.is_sync <;>
      simp [h2, hs, strEndsWith_append, not_endsWith_sync_py]
  · cases hs : s.is_sync
    · simp only [ConfiguredSnippet.client_class_name, hs, Bool.false_eq_true,
        if_false, iff_false]
      exact async_client_name_ne _
    · simp [ConfiguredSnippet.client_class_name, hs]

/-- C9: Calling `generate()` a second time is not a no-op and raises no
error: the parameter list is replaced with an equal list, a second
identical client-initialization statement is appended, and the module's
single function body then holds two client-initialization statements. -/
theorem generate_twice_appends_second_init (a : API) (config : SnippetConfig)
    (v : String) (b : Bool) :
    let g1 := (ConfiguredSnippet.init a config v b).generate
    let g2 := g1.generate
    g2._sample_function_def.params = g1._sample_function_def.params
  ∧ g1._sample_function_def.body
      = [ConfiguredSnippet.serviceClientInitStmt g1]
  ∧ g2._sample_function_def.body
      = [ConfiguredSnippet.serviceClientInitStmt g1,
          ConfiguredSnippet.serviceClientInitStmt g1]
  ∧ g2._module.body = [ModuleItem.fn g2._sample_function_def] := by
  refine ⟨rfl, ?_, ?_, rfl⟩ <;>
    simp [ConfiguredSnippet.generate, ConfiguredSnippet.build_sample_function,
      ConfiguredSnippet.add_sample_function,
      ConfiguredSnippet.add_sample_function_parameters,
      ConfiguredSnippet.append_service_client_initialization,
      ConfiguredSnippet.append_to_sample_function_def_body,
      appendToSampleFunctionBody, ConfiguredSnippet.serviceClientInitStmt,
      ConfiguredSnippet.api_endpoint, ConfiguredSnippet.gapic_module_name,
      ConfiguredSnippet.client_class_name, ConfiguredSnippet.init,
      base_function_def, empty_module]

/-- C10: Accessing any derived property returns its value and leaves the
instance state (in particular `_module` and `_sample_function_def`)
unchanged, so an immediately repeated access returns an equal value. -/
theorem property_access_leaves_state_unchanged (p : PropName)
    (s : ConfiguredSnippet) :
    (getProp p s).2 = s
  ∧ (getProp p ((getProp p s).2)).1 = (getProp p s).1 := by
  cases p <;> exact ⟨rfl, rfl⟩

end ConfiguredSnippetGen
